import Mathlib

/-!
Verification of the Orbit-Shield repository.

Part 1: the cache-synchronization subsystem (CacheStore, MetadataStore,
RemoteFetcher, SyncOrchestrator, FallbackResolver).  The repository ships
only the documentation of this subsystem (`CACHE_DATA.md`); the Python
cache manager itself is not among the provided source files, so the
subsystem is modelled from the spec, faithful to its words (see the doc
comments on the definitions).

Part 2: the 3D geometry helpers of the React frontend
(`SandboxPage.jsx`, `CollisionSimulator.jsx`), translated directly from
the JavaScript source into functions over the reals.
-/

namespace Cache

/-- Modelled from the spec: the fixed enumerated set of table names
(`satellites`, `debris`, `collision_events`, `alerts`, `maneuvers`),
the five cache files listed in the cache documentation.  The cache
manager code is not among the provided sources. -/
inductive Table
  | satellites
  | debris
  | collision_events
  | alerts
  | maneuvers
deriving DecidableEq, Repr

/-- Modelled from the spec: the list of all tables, in the order the
documentation lists the cache files. -/
def Table.all : List Table :=
  [.satellites, .debris, .collision_events, .alerts, .maneuvers]

/-- Modelled from the spec: global connectivity mode, `online` or
`offline`. -/
inductive Mode
  | online
  | offline
deriving DecidableEq, Repr

/-- Modelled from the spec: what the durable store may hold for a table:
a good snapshot (an ordered list of records), or an unreadable/corrupt
blob.  `load` must treat a corrupt blob identically to "not found". -/
inductive Stored (α : Type)
  | snapshot (records : List α)
  | corrupt
deriving DecidableEq, Repr

/-- Modelled from the spec: the durable state owned by CacheStore and
MetadataStore.  Records are opaque to the cache, so the model is
polymorphic in the record type `α`.

* `published` is the visible snapshot per table (what `load` reads);
* `temp` is the temporary write location of the atomic-publish
  strategy ("write to a temporary location and publish only after the
  write fully succeeds");
* `tableMeta` holds, per table, the last-sync timestamp and record
  count; `globalSync` the global last-sync timestamp;
* `connectivity` the global online/offline flag. -/
structure SysState (α : Type) where
  published : Table → Option (Stored α)
  temp : Table → Option (List α)
  tableMeta : Table → Option (Nat × Nat)
  globalSync : Option Nat
  connectivity : Mode

/-- Modelled from the spec: the empty initial state — no snapshots, no
temporary files, no metadata, connectivity optimistically `online`. -/
def SysState.init (α : Type) : SysState α :=
  { published := fun _ => none
    temp := fun _ => none
    tableMeta := fun _ => none
    globalSync := none
    connectivity := Mode.online }

/-- Modelled from the spec: the first phase of `save_to_cache` — the
write to the temporary location.  It does not touch the published
snapshot of any table. -/
def write_temp (s : SysState α) (t : Table) (records : List α) : SysState α :=
  { s with temp := fun u => if u = t then some records else s.temp u }

/-- Modelled from the spec: the second phase of `save_to_cache` — the
publish (rename/swap) of the fully written temporary data, replacing
the prior snapshot of `t` wholesale. -/
def publish_temp (s : SysState α) (t : Table) : SysState α :=
  { s with
    published := fun u => if u = t then (s.temp t).map Stored.snapshot else s.published u
    temp := fun u => if u = t then none else s.temp u }

/-- Modelled from the spec: `save_to_cache(table, data)` persists the
full snapshot, replacing any prior snapshot atomically: write to the
temporary location, then publish. -/
def save_to_cache (s : SysState α) (t : Table) (records : List α) : SysState α :=
  publish_temp (write_temp s t records) t

/-- Modelled from the spec: `load_from_cache(table)` returns the most
recently published snapshot, or `none` ("not found") when no snapshot
exists or the stored representation is corrupt — the two cases are
treated identically and never raise. -/
def load_from_cache (s : SysState α) (t : Table) : Option (List α) :=
  match s.published t with
  | some (Stored.snapshot records) => some records
  | some Stored.corrupt => none
  | none => none

/-- Modelled from the spec: `recordSync(table, count, timestamp)`
updates the per-table record count and timestamp and bumps the global
last-sync timestamp. -/
def record_sync (s : SysState α) (t : Table) (count now : Nat) : SysState α :=
  { s with
    tableMeta := fun u => if u = t then some (now, count) else s.tableMeta u
    globalSync := some now }

/-- Modelled from the spec: `setConnectivity(mode)` updates the global
online/offline flag. -/
def set_connectivity (s : SysState α) (m : Mode) : SysState α :=
  { s with connectivity := m }

/-- Modelled from the spec: outcome of one remote `fetchAll(table)`
call — the complete ordered record list on success, `unavailable` for
connection/timeout failures (`RemoteUnavailable`), `remoteError` for
authenticated-but-rejected requests (`RemoteError`).  A remote
environment is a function `Table → FetchResult α`. -/
inductive FetchResult (α : Type)
  | ok (records : List α)
  | unavailable
  | remoteError
deriving DecidableEq, Repr

/-- Modelled from the spec: the failure reasons a sync can report. -/
inductive FailReason
  | remoteUnavailable
  | remoteError
deriving DecidableEq, Repr

/-- Modelled from the spec: the typed per-table result of a sync —
success with a record count, or a failure reason; never an exception. -/
inductive SyncOutcome
  | success (count : Nat)
  | failure (reason : FailReason)
deriving DecidableEq, Repr

/-- Modelled from the spec: the outcome `sync_table` reports for a
table, determined by the remote fetch alone. -/
def sync_outcome (remote : Table → FetchResult α) (t : Table) : SyncOutcome :=
  match remote t with
  | .ok records => .success records.length
  | .unavailable => .failure .remoteUnavailable
  | .remoteError => .failure .remoteError

/-- Modelled from the spec: `sync_table(client, table)` fetches via
RemoteFetcher and on success calls `save_to_cache` then `record_sync`;
on failure it leaves the existing snapshot untouched and returns the
failure reason without throwing. -/
def sync_table (remote : Table → FetchResult α) (now : Nat) (t : Table)
    (s : SysState α) : SyncOutcome × SysState α :=
  match remote t with
  | .ok records =>
      (.success records.length, record_sync (save_to_cache s t records) t records.length now)
  | .unavailable => (.failure .remoteUnavailable, s)
  | .remoteError => (.failure .remoteError, s)

/-- Modelled from the spec: whether the remote endpoint was reachable
for a table (any outcome other than `RemoteUnavailable`). -/
def reachable (remote : Table → FetchResult α) (t : Table) : Bool :=
  match remote t with
  | .unavailable => false
  | _ => true

/-- Modelled from the spec: `sync_all_tables(client)` runs `sync_table`
for every table in the fixed set, aggregating a per-table outcome;
one table's failure does not abort or skip the others.  Connectivity is
set to `online` if the remote was reachable for at least one table,
`offline` only if every table's fetch failed with `RemoteUnavailable`.

`sync_step` is one iteration of the fan-out: sync table `t` against the
accumulated state and append its outcome. -/
def sync_step (remote : Table → FetchResult α) (now : Nat)
    (acc : List (Table × SyncOutcome) × SysState α) (t : Table) :
    List (Table × SyncOutcome) × SysState α :=
  (acc.1 ++ [(t, (sync_table remote now t acc.2).1)], (sync_table remote now t acc.2).2)

/-- Modelled from the spec: `sync_all_tables(client)` runs `sync_table`
for every table in the fixed set in order, threading the state and
aggregating the per-table outcomes. -/
def sync_all_tables (remote : Table → FetchResult α) (now : Nat)
    (s : SysState α) : List (Table × SyncOutcome) × SysState α :=
  let folded := Table.all.foldl (sync_step remote now) ([], s)
  (folded.1,
   set_connectivity folded.2
     (if Table.all.any (reachable remote) then Mode.online else Mode.offline))

/-- Modelled from the spec: the result a FallbackResolver read hands to
its caller — live records, cached records, the explicit empty
"no data available" result, or a surfaced `RemoteError`. -/
inductive ReadResult (α : Type)
  | fromRemote (records : List α)
  | fromCache (records : List α)
  | noData
  | remoteErr
deriving DecidableEq, Repr

/-- Modelled from the spec: the FallbackResolver per-request state
machine.  Attempt the remote read; on success return the live records,
opportunistically persist them and set connectivity `online`; on
`RemoteUnavailable` (connection error or timeout) serve the cache —
found: return the cached records; not found: return the explicit empty
`noData` result — setting connectivity `offline` in both cases; on
`RemoteError` surface the error without consulting the cache. -/
def fallback_read (remote : Table → FetchResult α) (now : Nat) (t : Table)
    (s : SysState α) : ReadResult α × SysState α :=
  match remote t with
  | .ok records =>
      (.fromRemote records,
       set_connectivity (record_sync (save_to_cache s t records) t records.length now)
         Mode.online)
  | .unavailable =>
      match load_from_cache s t with
      | some records => (.fromCache records, set_connectivity s Mode.offline)
      | none => (.noData, set_connectivity s Mode.offline)
  | .remoteError => (.remoteErr, s)

/-- Modelled from the spec: the RemoteFetcher pagination loop.
`rows` is the complete remote table contents; each request returns the
next page of at most `pageSize` records and the loop stops as soon as a
page comes back with fewer records than `pageSize`.  The `pageSize = 0`
guard only makes the recursion well founded; the spec's bounded page
size is at least 1. -/
def fetchAll (pageSize : Nat) (rows : List α) : List α :=
  if (rows.take pageSize).length < pageSize ∨ pageSize = 0 then rows.take pageSize
  else rows.take pageSize ++ fetchAll pageSize (rows.drop pageSize)
termination_by rows.length
decreasing_by
  rename_i h
  push_neg at h
  obtain ⟨hle, hpos⟩ := h
  simp only [List.length_take] at hle
  simp only [List.length_drop]
  omega

end Cache

namespace Frontend

open Real

/-- A 3D vector, the embedding of `THREE.Vector3` over the reals. -/
structure Vec3 where
  x : ℝ
  y : ℝ
  z : ℝ

/-- The zero vector, used as the out-of-range default for list indexing
(the loops of the source only index within bounds). -/
def Vec3.zero : Vec3 := ⟨0, 0, 0⟩

/-- Euclidean norm of a vector (`THREE.Vector3.length`). -/
noncomputable def Vec3.norm (v : Vec3) : ℝ :=
  Real.sqrt (v.x ^ 2 + v.y ^ 2 + v.z ^ 2)

/-- `THREE.Vector3.distanceTo`: the Euclidean distance between two
points. -/
noncomputable def distanceTo (p q : Vec3) : ℝ :=
  Real.sqrt ((p.x - q.x) ^ 2 + (p.y - q.y) ^ 2 + (p.z - q.z) ^ 2)

/-- `THREE.Vector3.lerp(v, alpha)`: each component moves the fraction
`alpha` of the way towards `v`'s component. -/
noncomputable def Vec3.lerp (p q : Vec3) (alpha : ℝ) : Vec3 :=
  ⟨p.x + (q.x - p.x) * alpha, p.y + (q.y - p.y) * alpha, p.z + (q.z - p.z) * alpha⟩

/-- The point the loop body of `generateOrbitPath` pushes at index `i`
(the function appears, identically, in both `SandboxPage.jsx` and
`CollisionSimulator.jsx`). -/
noncomputable def orbitPoint (lat lon alt : ℝ) (numPoints i : ℕ) : Vec3 :=
  let rEarthKm : ℝ := 6371
  let earthRadiusScene : ℝ := 2
  let scale := earthRadiusScene / rEarthKm
  let orbitRadius := (rEarthKm + alt) * scale
  let lonR := lon * Real.pi / 180
  let inclination := lat * Real.pi / 180
  let theta := ((i : ℝ) / (numPoints : ℝ)) * Real.pi * 2
  let xOrbit := orbitRadius * Real.cos theta
  let yOrbit := orbitRadius * Real.sin theta
  ⟨xOrbit * Real.cos lonR - yOrbit * Real.sin lonR * Real.cos inclination,
   yOrbit * Real.sin inclination,
   xOrbit * Real.sin lonR + yOrbit * Real.cos lonR * Real.cos inclination⟩

/-- `generateOrbitPath(lat, lon, alt, numPoints)` of `SandboxPage.jsx`
and `CollisionSimulator.jsx`: the points pushed by the loop for
`i = 0, …, numPoints - 1`. -/
noncomputable def generateOrbitPath (lat lon alt : ℝ) (numPoints : ℕ) : List Vec3 :=
  (List.range numPoints).map (orbitPoint lat lon alt numPoints)

/-- `latLonAltToVector(lat, lon, altKm, earthRadiusScene)` of
`CollisionSimulator.jsx` (no defaulting of the inputs). -/
noncomputable def latLonAltToVector (lat lon altKm earthRadiusScene : ℝ) : Vec3 :=
  let rEarthKm : ℝ := 6371
  let rKm := rEarthKm + altKm
  let scale := earthRadiusScene / rEarthKm
  let r := rKm * scale
  let latR := lat * Real.pi / 180
  let lonR := lon * Real.pi / 180
  ⟨r * Real.cos latR * Real.cos lonR,
   r * Real.sin latR,
   r * Real.cos latR * Real.sin lonR⟩

/-- The JavaScript `v || 0` applied to a finite number: falsy numeric
values (only `0` among finite reals) become `0`, everything else is
kept. -/
noncomputable def orZero (x : ℝ) : ℝ := if x = 0 then 0 else x

/-- `latLonAltToVector(lat, lon, altKm, earthRadiusScene)` of
`SandboxPage.jsx`, which defaults `lat`, `lon` and `altKm` through
`|| 0` before using them. -/
noncomputable def latLonAltToVectorSandbox (lat lon altKm earthRadiusScene : ℝ) : Vec3 :=
  let rEarthKm : ℝ := 6371
  let rKm := rEarthKm + orZero altKm
  let scale := earthRadiusScene / rEarthKm
  let r := rKm * scale
  let latR := orZero lat * Real.pi / 180
  let lonR := orZero lon * Real.pi / 180
  ⟨r * Real.cos latR * Real.cos lonR,
   r * Real.sin latR,
   r * Real.cos latR * Real.sin lonR⟩

/-- Loop state of `findClosestApproach`: `(minDist, minIndex, minPoint)`.
`minDist = none` embeds the JavaScript initial `Infinity` (every real
distance compares below it) and `minPoint = none` the initial `null`. -/
def ApproachState : Type := Option ℝ × ℕ × Option Vec3

open Classical in
/-- The loop of `findClosestApproach` after `m` iterations: for each
`i = 0, …, m - 1` in order, if the distance at `i` beats the running
minimum, record it together with the index and the midpoint. -/
noncomputable def closestLoop (d : ℕ → ℝ) (mid : ℕ → Vec3) : ℕ → ApproachState
  | 0 => (none, 0, none)
  | k + 1 =>
      let st := closestLoop d mid k
      if (match st.1 with
          | none => True
          | some dm => d k < dm) then (some (d k), k, some (mid k)) else st

/-- Result record of `findClosestApproach`: `distance = none` embeds the
JavaScript `Infinity` and `point = none` the JavaScript `null`, both of
which survive only when the loop never runs. -/
structure ApproachResult where
  distance : Option ℝ
  index : ℕ
  point : Option Vec3
  progress : ℝ

/-- `findClosestApproach(traj1, traj2)` of `CollisionSimulator.jsx`:
scan indices `0, …, min(traj1.length, traj2.length) - 1`, keep the
strictly smallest pointwise distance with its index and the midpoint
`traj1[i].clone().lerp(traj2[i], 0.5)`, and report
`progress = minIndex / traj1.length`. -/
noncomputable def findClosestApproach (traj1 traj2 : List Vec3) : ApproachResult :=
  let st := closestLoop
    (fun i => distanceTo (traj1.getD i Vec3.zero) (traj2.getD i Vec3.zero))
    (fun i => Vec3.lerp (traj1.getD i Vec3.zero) (traj2.getD i Vec3.zero) (1 / 2))
    (min traj1.length traj2.length)
  ⟨st.1, st.2.1, st.2.2, (st.2.1 : ℝ) / (traj1.length : ℝ)⟩

end Frontend

namespace Cache

/-- Every table belongs to the fixed table set. -/
theorem Table.mem_all (t : Table) : t ∈ Table.all := by
  cases t <;> simp [Table.all]

/-- Claim C2: for every table `T` and every record sequence `R`,
`save(T, R)` followed by `load(T)` returns `R` unchanged — same
records, same order, same field values. -/
theorem save_load_roundtrip (s : SysState α) (t : Table) (records : List α) :
    load_from_cache (save_to_cache s t records) t = some records := by
  simp [load_from_cache, save_to_cache, publish_temp, write_temp]

/-- After a successful `sync_table` of `t`, `load` of `t` returns the
fetched records (shared helper). -/
theorem sync_table_load_self (remote : Table → FetchResult α) (now : Nat)
    (t : Table) (s : SysState α) (records : List α)
    (h : remote t = FetchResult.ok records) :
    load_from_cache (sync_table remote now t s).2 t = some records := by
  simp [sync_table, h, record_sync, load_from_cache, save_to_cache, publish_temp,
    write_temp]

/-- Claim C1: if `syncTable(T)` succeeds (the remote fetch returned
`records`), a subsequent `load(T)` returns exactly the fetched records
in fetch order, whatever snapshot was stored before — a wholesale
replacement, never a merge. -/
theorem sync_table_replaces_snapshot (remote : Table → FetchResult α) (now : Nat)
    (t : Table) (s : SysState α) (records : List α)
    (h : remote t = FetchResult.ok records) :
    load_from_cache (sync_table remote now t s).2 t = some records :=
  sync_table_load_self remote now t s records h

/-- Witness for C1, the spec's concrete scenario: the cache holds 5
records for `satellites` from a prior sync, the remote now returns 7;
after the sync, `load` returns exactly the 7 new records, not a merge
of 12. -/
theorem sync_table_replaces_snapshot_witness :
    (fun _ : Table => FetchResult.ok [10, 20, 30, 40, 50, 60, 70]) Table.satellites
        = FetchResult.ok [10, 20, 30, 40, 50, 60, 70] ∧
    load_from_cache
      (sync_table (fun _ : Table => FetchResult.ok [10, 20, 30, 40, 50, 60, 70]) 5
        Table.satellites
        (save_to_cache (SysState.init ℕ) Table.satellites [1, 2, 3, 4, 5])).2
      Table.satellites = some [10, 20, 30, 40, 50, 60, 70] :=
  ⟨rfl, sync_table_replaces_snapshot _ 5 Table.satellites _ _ rfl⟩

/-- Claim C3: a `save` that fails or is interrupted after writing the
temporary location but before the publish step leaves every published
snapshot unchanged — `load` returns exactly what it returned before. -/
theorem interrupted_save_preserves_load (s : SysState α) (t : Table)
    (halfWritten : List α) (u : Table) :
    load_from_cache (write_temp s t halfWritten) u = load_from_cache s u := rfl

/-- Claim C5: a FallbackResolver read whose remote fetch fails with
`RemoteUnavailable` (connection error or timeout) returns exactly the
last persisted snapshot and sets connectivity to `offline`. -/
theorem fallback_read_serves_cache (remote : Table → FetchResult α) (now : Nat)
    (t : Table) (s : SysState α) (records : List α)
    (hr : remote t = FetchResult.unavailable)
    (hc : load_from_cache s t = some records) :
    (fallback_read remote now t s).1 = ReadResult.fromCache records ∧
    (fallback_read remote now t s).2.connectivity = Mode.offline := by
  simp [fallback_read, hr, hc, set_connectivity]

/-- Witness for C5: with `debris = [7, 8]` cached and the remote
unavailable, the read serves `[7, 8]` from cache and goes offline. -/
theorem fallback_read_serves_cache_witness :
    (fun _ : Table => (FetchResult.unavailable : FetchResult ℕ)) Table.debris
        = FetchResult.unavailable ∧
    load_from_cache (save_to_cache (SysState.init ℕ) Table.debris [7, 8])
        Table.debris = some [7, 8] ∧
    (fallback_read (fun _ : Table => (FetchResult.unavailable : FetchResult ℕ)) 3
        Table.debris
        (save_to_cache (SysState.init ℕ) Table.debris [7, 8])).1
        = ReadResult.fromCache [7, 8] ∧
    (fallback_read (fun _ : Table => (FetchResult.unavailable : FetchResult ℕ)) 3
        Table.debris
        (save_to_cache (SysState.init ℕ) Table.debris [7, 8])).2.connectivity
        = Mode.offline :=
  ⟨rfl, rfl,
    (fallback_read_serves_cache (fun _ : Table => (FetchResult.unavailable : FetchResult ℕ))
      3 Table.debris (save_to_cache (SysState.init ℕ) Table.debris [7, 8]) [7, 8]
      rfl rfl).1,
    (fallback_read_serves_cache (fun _ : Table => (FetchResult.unavailable : FetchResult ℕ))
      3 Table.debris (save_to_cache (SysState.init ℕ) Table.debris [7, 8]) [7, 8]
      rfl rfl).2⟩

/-- Claim C6: a FallbackResolver read of a table whose cache is missing
or corrupt (`load` finds nothing) while the remote is unavailable
returns the explicit empty `noData` result, sets connectivity to
`offline`, and never surfaces an error to the caller. -/
theorem fallback_read_no_data (remote : Table → FetchResult α) (now : Nat)
    (t : Table) (s : SysState α)
    (hr : remote t = FetchResult.unavailable)
    (hc : load_from_cache s t = none) :
    (fallback_read remote now t s).1 = ReadResult.noData ∧
    (fallback_read remote now t s).2.connectivity = Mode.offline ∧
    (fallback_read remote now t s).1 ≠ ReadResult.remoteErr := by
  simp [fallback_read, hr, hc, set_connectivity]

/-- Witness for C6: an empty cache and an unavailable remote yield the
`noData` result with connectivity `offline`. -/
theorem fallback_read_no_data_witness :
    (fun _ : Table => (FetchResult.unavailable : FetchResult ℕ)) Table.alerts
        = FetchResult.unavailable ∧
    load_from_cache (SysState.init ℕ) Table.alerts = none ∧
    (fallback_read (fun _ : Table => (FetchResult.unavailable : FetchResult ℕ)) 3
        Table.alerts (SysState.init ℕ)).1 = ReadResult.noData ∧
    (fallback_read (fun _ : Table => (FetchResult.unavailable : FetchResult ℕ)) 3
        Table.alerts (SysState.init ℕ)).2.connectivity = Mode.offline :=
  ⟨rfl, rfl,
    (fallback_read_no_data (fun _ : Table => (FetchResult.unavailable : FetchResult ℕ))
      3 Table.alerts (SysState.init ℕ) rfl rfl).1,
    (fallback_read_no_data (fun _ : Table => (FetchResult.unavailable : FetchResult ℕ))
      3 Table.alerts (SysState.init ℕ) rfl rfl).2.1⟩

/-- Auxiliary strong induction for the pagination loop: once the
remaining rows fit under a length bound, `fetchAll` returns them all. -/
theorem fetchAll_eq_of_le (pageSize : Nat) (h : 1 ≤ pageSize) :
    ∀ n (rows : List α), rows.length ≤ n → fetchAll pageSize rows = rows := by
  intro n
  induction n with
  | zero =>
      intro rows hr
      rw [fetchAll]
      have hnil : rows = [] := List.eq_nil_of_length_eq_zero (Nat.le_zero.mp hr)
      subst hnil
      simp
  | succ n ih =>
      intro rows hr
      rw [fetchAll]
      split
      · rename_i hc
        rcases hc with hlt | h0
        · refine List.take_of_length_le ?_
          rw [List.length_take] at hlt
          omega
        · omega
      · rename_i hc
        push_neg at hc
        obtain ⟨hge, h0⟩ := hc
        rw [List.length_take] at hge
        have hp : pageSize ≤ rows.length := by omega
        have hd : (rows.drop pageSize).length ≤ n := by
          rw [List.length_drop]
          omega
        rw [ih _ hd, List.take_append_drop]

/-- Claim C7: for every positive page size, the pagination loop of
`fetchAll` terminates (it is a total function by well-founded recursion
on the remaining rows) and the concatenation of the pages, in request
order, is exactly the remote table contents. -/
theorem fetchAll_concat (pageSize : Nat) (h : 1 ≤ pageSize) (rows : List α) :
    fetchAll pageSize rows = rows :=
  fetchAll_eq_of_le pageSize h rows.length rows le_rfl

/-- Witness for C7: page size 2 over five rows — three requests, the
last page shorter than the page size, concatenating to the full table. -/
theorem fetchAll_concat_witness :
    1 ≤ 2 ∧ fetchAll 2 [1, 2, 3, 4, 5] = [1, 2, 3, 4, 5] :=
  ⟨by norm_num, fetchAll_concat 2 (by norm_num) [1, 2, 3, 4, 5]⟩

/-- The outcome `sync_table` reports depends only on the remote fetch,
not on the accumulated state. -/
theorem sync_table_fst (remote : Table → FetchResult α) (now : Nat) (t : Table)
    (s : SysState α) : (sync_table remote now t s).1 = sync_outcome remote t := by
  cases h : remote t <;> simp [sync_table, sync_outcome, h]

/-- A failed sync leaves the whole state untouched. -/
theorem sync_table_fail_state (remote : Table → FetchResult α) (now : Nat)
    (t : Table) (s : SysState α)
    (h : remote t = FetchResult.unavailable ∨ remote t = FetchResult.remoteError) :
    (sync_table remote now t s).2 = s := by
  rcases h with h | h <;> simp [sync_table, h]

/-- Syncing table `u` never changes the published snapshot of a
different table `t`. -/
theorem sync_table_load_other (remote : Table → FetchResult α) (now : Nat)
    (u t : Table) (hne : t ≠ u) (s : SysState α) :
    load_from_cache (sync_table remote now u s).2 t = load_from_cache s t := by
  cases h : remote u <;>
    simp [sync_table, h, record_sync, load_from_cache, save_to_cache, publish_temp,
      write_temp, hne]

/-- The fan-out fold appends, in table order, exactly the per-table
outcome of each sync. -/
theorem foldl_sync_outcomes (remote : Table → FetchResult α) (now : Nat)
    (ts : List Table) :
    ∀ acc : List (Table × SyncOutcome) × SysState α,
      (ts.foldl (sync_step remote now) acc).1
        = acc.1 ++ ts.map (fun t => (t, sync_outcome remote t)) := by
  induction ts with
  | nil => intro acc; simp
  | cons u ts ih =>
      intro acc
      rw [List.foldl_cons, ih]
      simp [sync_step, sync_table_fst]

/-- A table whose fetch fails keeps its published snapshot through the
whole fan-out. -/
theorem foldl_sync_load_not_ok (remote : Table → FetchResult α) (now : Nat)
    (t : Table)
    (h : remote t = FetchResult.unavailable ∨ remote t = FetchResult.remoteError)
    (ts : List Table) :
    ∀ acc : List (Table × SyncOutcome) × SysState α,
      load_from_cache (ts.foldl (sync_step remote now) acc).2 t
        = load_from_cache acc.2 t := by
  induction ts with
  | nil => intro acc; rfl
  | cons u ts ih =>
      intro acc
      rw [List.foldl_cons, ih]
      by_cases hu : t = u
      · subst hu
        show load_from_cache (sync_table remote now t acc.2).2 t = _
        rw [sync_table_fail_state remote now t acc.2 h]
      · exact sync_table_load_other remote now u t hu acc.2

/-- Tables outside the remaining worklist keep their published snapshot
through the rest of the fan-out. -/
theorem foldl_sync_load_not_mem (remote : Table → FetchResult α) (now : Nat)
    (t : Table) (ts : List Table) (hmem : t ∉ ts) :
    ∀ acc : List (Table × SyncOutcome) × SysState α,
      load_from_cache (ts.foldl (sync_step remote now) acc).2 t
        = load_from_cache acc.2 t := by
  induction ts with
  | nil => intro acc; rfl
  | cons u ts ih =>
      intro acc
      have hne : t ≠ u := fun he => hmem (he ▸ List.mem_cons_self u ts)
      have hts : t ∉ ts := fun hin => hmem (List.mem_cons_of_mem u hin)
      rw [List.foldl_cons, ih hts]
      exact sync_table_load_other remote now u t hne acc.2

/-- A table whose fetch succeeds ends the fan-out with exactly the
fetched records published. -/
theorem foldl_sync_load_ok (remote : Table → FetchResult α) (now : Nat)
    (t : Table) (records : List α) (h : remote t = FetchResult.ok records)
    (ts : List Table) :
    ∀ acc : List (Table × SyncOutcome) × SysState α, t ∈ ts →
      load_from_cache (ts.foldl (sync_step remote now) acc).2 t = some records := by
  induction ts with
  | nil => intro acc hmem; exact absurd hmem (List.not_mem_nil t)
  | cons u ts ih =>
      intro acc hmem
      rw [List.foldl_cons]
      by_cases ht : t ∈ ts
      · exact ih _ ht
      · have he : t = u := by
          rcases List.mem_cons.mp hmem with he | hin
          · exact he
          · exact absurd hin ht
        subst he
        rw [foldl_sync_load_not_mem remote now t ts ht _]
        exact sync_table_load_self remote now t acc.2 records h

/-- Setting connectivity does not change what `load` returns. -/
theorem load_set_connectivity (s : SysState α) (m : Mode) (t : Table) :
    load_from_cache (set_connectivity s m) t = load_from_cache s t := rfl

/-- Claim C4: `syncAll()` runs `syncTable` for every table in the fixed
set and reports each table's outcome (success with record count, or the
typed failure reason); every table whose fetch succeeded has its
snapshot persisted, and every table whose fetch failed keeps its prior
snapshot — no failure aborts, skips or rolls back the others, and the
whole operation is a total function that never raises. -/
theorem sync_all_tables_spec (remote : Table → FetchResult α) (now : Nat)
    (s : SysState α) :
    (sync_all_tables remote now s).1
        = Table.all.map (fun t => (t, sync_outcome remote t)) ∧
    ∀ t : Table,
      (∀ records, remote t = FetchResult.ok records →
        load_from_cache (sync_all_tables remote now s).2 t = some records) ∧
      ((remote t = FetchResult.unavailable ∨ remote t = FetchResult.remoteError) →
        load_from_cache (sync_all_tables remote now s).2 t = load_from_cache s t) := by
  refine ⟨?_, fun t => ⟨fun records h => ?_, fun h => ?_⟩⟩
  · have h1 := foldl_sync_outcomes remote now Table.all ([], s)
    simpa [sync_all_tables] using h1
  · have h1 := foldl_sync_load_ok remote now t records h Table.all ([], s)
      (Table.mem_all t)
    simpa [sync_all_tables, load_set_connectivity] using h1
  · have h1 := foldl_sync_load_not_ok remote now t h Table.all ([], s)
    simpa [sync_all_tables, load_set_connectivity] using h1

/-- Witness for C4, the spec's concrete scenario: `debris` unreachable,
every other table returning `[1, 2, 3]`; the sync persists the three
records for `satellites` and leaves the (empty) `debris` snapshot
untouched. -/
theorem sync_all_tables_spec_witness :
    (fun t => match t with
      | Table.debris => FetchResult.unavailable
      | _ => FetchResult.ok ([1, 2, 3] : List ℕ)) Table.satellites
        = FetchResult.ok [1, 2, 3] ∧
    (fun t => match t with
      | Table.debris => FetchResult.unavailable
      | _ => FetchResult.ok ([1, 2, 3] : List ℕ)) Table.debris
        = FetchResult.unavailable ∧
    load_from_cache
      (sync_all_tables (fun t => match t with
        | Table.debris => FetchResult.unavailable
        | _ => FetchResult.ok ([1, 2, 3] : List ℕ)) 9 (SysState.init ℕ)).2
      Table.satellites = some [1, 2, 3] ∧
    load_from_cache
      (sync_all_tables (fun t => match t with
        | Table.debris => FetchResult.unavailable
        | _ => FetchResult.ok ([1, 2, 3] : List ℕ)) 9 (SysState.init ℕ)).2
      Table.debris = load_from_cache (SysState.init ℕ) Table.debris :=
  ⟨rfl, rfl,
    ((sync_all_tables_spec (fun t => match t with
        | Table.debris => FetchResult.unavailable
        | _ => FetchResult.ok ([1, 2, 3] : List ℕ)) 9 (SysState.init ℕ)).2
      Table.satellites).1 [1, 2, 3] rfl,
    ((sync_all_tables_spec (fun t => match t with
        | Table.debris => FetchResult.unavailable
        | _ => FetchResult.ok ([1, 2, 3] : List ℕ)) 9 (SysState.init ℕ)).2
      Table.debris).2 (Or.inl rfl)⟩

end Cache

namespace Frontend

/-- Over the reals, the JavaScript defaulting `v || 0` of a finite
number is the identity. -/
theorem orZero_eq (x : ℝ) : orZero x = x := by
  unfold orZero
  split
  · rename_i h
    exact h.symm
  · rfl

/-- Claim C9: the two duplicated `latLonAltToVector` implementations —
the `SandboxPage.jsx` one with `|| 0` defaults and the
`CollisionSimulator.jsx` one without them — compute identical vectors
for every finite numeric input triple at the default
`earthRadiusScene = 2`. -/
theorem latLonAltToVector_equiv (lat lon altKm : ℝ) :
    latLonAltToVectorSandbox lat lon altKm 2 = latLonAltToVector lat lon altKm 2 := by
  simp only [latLonAltToVectorSandbox, latLonAltToVector, orZero_eq]

/-- The Euclidean norm of a vector is nonnegative. -/
theorem Vec3.norm_nonneg (v : Vec3) : 0 ≤ v.norm := Real.sqrt_nonneg _

/-- Algebraic core of the orbit-radius computation: the
longitude/inclination map sends a point of radius `r` in the orbital
plane to a point whose squared norm is still `r ^ 2`. -/
theorem rotated_norm_sq (r cL sL cI sI cT sT : ℝ)
    (hL : sL ^ 2 + cL ^ 2 = 1) (hI : sI ^ 2 + cI ^ 2 = 1)
    (hT : sT ^ 2 + cT ^ 2 = 1) :
    (r * cT * cL - r * sT * sL * cI) ^ 2 + (r * sT * sI) ^ 2
      + (r * cT * sL + r * sT * cL * cI) ^ 2 = r ^ 2 := by
  linear_combination (r ^ 2 * (cT ^ 2 + sT ^ 2 * cI ^ 2)) * hL
    + (r ^ 2 * sT ^ 2) * hI + r ^ 2 * hT

/-- Every point of the generated orbit lies at exactly the orbit radius
`(6371 + alt) * (2 / 6371)` from the origin, provided that radius is
nonnegative. -/
theorem orbitPoint_norm (lat lon alt : ℝ) (numPoints i : ℕ) (h : -6371 ≤ alt) :
    (orbitPoint lat lon alt numPoints i).norm = (6371 + alt) * (2 / 6371) := by
  have hr : (0 : ℝ) ≤ (6371 + alt) * (2 / 6371) := by
    apply mul_nonneg
    · linarith
    · norm_num
  have key := rotated_norm_sq ((6371 + alt) * (2 / 6371))
    (Real.cos (lon * Real.pi / 180)) (Real.sin (lon * Real.pi / 180))
    (Real.cos (lat * Real.pi / 180)) (Real.sin (lat * Real.pi / 180))
    (Real.cos (((i : ℝ) / (numPoints : ℝ)) * Real.pi * 2))
    (Real.sin (((i : ℝ) / (numPoints : ℝ)) * Real.pi * 2))
    (Real.sin_sq_add_cos_sq _) (Real.sin_sq_add_cos_sq _)
    (Real.sin_sq_add_cos_sq _)
  simp only [orbitPoint, Vec3.norm]
  rw [key, Real.sqrt_sq hr]

/-- Counterexample to C8 as stated: the claim quantifies over all finite
real altitudes, but at `alt = -12742` (an orbit radius of `-2` scene
units) every generated point has nonnegative norm, which cannot equal
the negative claimed value. -/
theorem generateOrbitPath_claim_counterexample :
    ¬ ∀ p ∈ generateOrbitPath 0 0 (-12742) 1,
        Vec3.norm p = (6371 + (-12742)) * (2 / 6371) := by
  intro hall
  have hmem : orbitPoint 0 0 (-12742) 1 0 ∈ generateOrbitPath 0 0 (-12742) 1 := by
    simp [generateOrbitPath]
  have heq := hall _ hmem
  have hnn := Vec3.norm_nonneg (orbitPoint 0 0 (-12742) 1 0)
  rw [heq] at hnn
  norm_num at hnn

/-- Claim C8 (amended with `-6371 ≤ alt`, i.e. a nonnegative orbit
radius): `generateOrbitPath(lat, lon, alt, numPoints)` returns exactly
`numPoints` points, and every returned point has Euclidean norm
`(6371 + alt) * (2 / 6371)` — the longitude/inclination map preserves
the orbit radius, so the generated orbit is exactly circular. -/
theorem generateOrbitPath_spec (lat lon alt : ℝ) (numPoints : ℕ)
    (_h1 : 1 ≤ numPoints) (h2 : -6371 ≤ alt) :
    (generateOrbitPath lat lon alt numPoints).length = numPoints ∧
    ∀ p ∈ generateOrbitPath lat lon alt numPoints,
      Vec3.norm p = (6371 + alt) * (2 / 6371) := by
  constructor
  · simp [generateOrbitPath]
  · intro p hp
    simp only [generateOrbitPath, List.mem_map, List.mem_range] at hp
    obtain ⟨i, -, rfl⟩ := hp
    exact orbitPoint_norm lat lon alt numPoints i h2

/-- Witness for C8: a satellite at latitude 10°, longitude 20°,
altitude 500 km, sampled at 4 points. -/
theorem generateOrbitPath_spec_witness :
    (1 ≤ 4 ∧ (-6371 : ℝ) ≤ 500) ∧
    ((generateOrbitPath 10 20 500 4).length = 4 ∧
     ∀ p ∈ generateOrbitPath 10 20 500 4,
       Vec3.norm p = (6371 + 500) * (2 / 6371)) :=
  ⟨⟨by norm_num, by norm_num⟩,
    generateOrbitPath_spec 10 20 500 4 (by norm_num) (by norm_num)⟩

/-- Invariant of the `findClosestApproach` loop: after at least one
iteration the state holds the strictly smallest value seen so far, at
the first index attaining it, together with the midpoint recorded
there. -/
theorem closestLoop_min (d : ℕ → ℝ) (mid : ℕ → Vec3) :
    ∀ m, 1 ≤ m → ∃ j, j < m ∧
      closestLoop d mid m = (some (d j), j, some (mid j)) ∧
      (∀ i, i < m → d j ≤ d i) ∧ (∀ i, i < j → d j < d i) := by
  intro m
  induction m with
  | zero => intro h; exact absurd h (by omega)
  | succ k ih =>
      intro _
      by_cases hk : 1 ≤ k
      · obtain ⟨j, hjk, hst, hmin, hfirst⟩ := ih hk
        by_cases hc : d k < d j
        · refine ⟨k, Nat.lt_succ_self k, ?_, ?_, ?_⟩
          · simp only [closestLoop, hst]
            rw [if_pos hc]
          · intro i hi
            rcases Nat.lt_succ_iff_lt_or_eq.mp hi with hi | rfl
            · exact le_of_lt (lt_of_lt_of_le hc (hmin i hi))
            · exact le_refl _
          · intro i hi
            exact lt_of_lt_of_le hc (hmin i hi)
        · refine ⟨j, by omega, ?_, ?_, hfirst⟩
          · simp only [closestLoop, hst]
            rw [if_neg hc]
          · intro i hi
            rcases Nat.lt_succ_iff_lt_or_eq.mp hi with hi | rfl
            · exact hmin i hi
            · exact le_of_not_lt hc
      · have hk0 : k = 0 := by omega
        subst hk0
        refine ⟨0, Nat.lt_succ_self 0, ?_, ?_, ?_⟩
        · simp only [closestLoop]
          rw [if_pos trivial]
        · intro i hi
          have hi0 : i = 0 := by omega
          subst hi0
          exact le_refl _
        · intro i hi
          exact absurd hi (Nat.not_lt_zero i)

/-- Claim C10: for trajectories with at least one comparable index,
`findClosestApproach` returns the minimum pointwise Euclidean distance
over the common index range, taken at the first index attaining it,
with `point` the midpoint of the two trajectory points there and
`progress = index / traj1.length`. -/
theorem findClosestApproach_spec (traj1 traj2 : List Vec3)
    (h : 1 ≤ min traj1.length traj2.length) :
    ∃ j, j < min traj1.length traj2.length ∧
      (findClosestApproach traj1 traj2).index = j ∧
      (findClosestApproach traj1 traj2).distance
        = some (distanceTo (traj1.getD j Vec3.zero) (traj2.getD j Vec3.zero)) ∧
      (∀ i, i < min traj1.length traj2.length →
        distanceTo (traj1.getD j Vec3.zero) (traj2.getD j Vec3.zero)
          ≤ distanceTo (traj1.getD i Vec3.zero) (traj2.getD i Vec3.zero)) ∧
      (∀ i, i < j →
        distanceTo (traj1.getD j Vec3.zero) (traj2.getD j Vec3.zero)
          < distanceTo (traj1.getD i Vec3.zero) (traj2.getD i Vec3.zero)) ∧
      (findClosestApproach traj1 traj2).point
        = some (Vec3.lerp (traj1.getD j Vec3.zero) (traj2.getD j Vec3.zero) (1 / 2)) ∧
      (findClosestApproach traj1 traj2).progress
        = (j : ℝ) / (traj1.length : ℝ) := by
  obtain ⟨j, hjm, hst, hmin, hfirst⟩ := closestLoop_min
    (fun i => distanceTo (traj1.getD i Vec3.zero) (traj2.getD i Vec3.zero))
    (fun i => Vec3.lerp (traj1.getD i Vec3.zero) (traj2.getD i Vec3.zero) (1 / 2))
    (min traj1.length traj2.length) h
  refine ⟨j, hjm, ?_, ?_, hmin, hfirst, ?_, ?_⟩
  all_goals
    simp only [findClosestApproach]
    rw [hst]

/-- Witness for C10: two one-point trajectories, both at the origin. -/
theorem findClosestApproach_spec_witness :
    1 ≤ min [Vec3.zero].length [Vec3.zero].length ∧
    ∃ j, j < min [Vec3.zero].length [Vec3.zero].length ∧
      (findClosestApproach [Vec3.zero] [Vec3.zero]).index = j ∧
      (findClosestApproach [Vec3.zero] [Vec3.zero]).distance
        = some (distanceTo ([Vec3.zero].getD j Vec3.zero)
            ([Vec3.zero].getD j Vec3.zero)) ∧
      (∀ i, i < min [Vec3.zero].length [Vec3.zero].length →
        distanceTo ([Vec3.zero].getD j Vec3.zero) ([Vec3.zero].getD j Vec3.zero)
          ≤ distanceTo ([Vec3.zero].getD i Vec3.zero)
              ([Vec3.zero].getD i Vec3.zero)) ∧
      (∀ i, i < j →
        distanceTo ([Vec3.zero].getD j Vec3.zero) ([Vec3.zero].getD j Vec3.zero)
          < distanceTo ([Vec3.zero].getD i Vec3.zero)
              ([Vec3.zero].getD i Vec3.zero)) ∧
      (findClosestApproach [Vec3.zero] [Vec3.zero]).point
        = some (Vec3.lerp ([Vec3.zero].getD j Vec3.zero)
            ([Vec3.zero].getD j Vec3.zero) (1 / 2)) ∧
      (findClosestApproach [Vec3.zero] [Vec3.zero]).progress
        = (j : ℝ) / ([Vec3.zero].length : ℝ) :=
  ⟨by simp, findClosestApproach_spec [Vec3.zero] [Vec3.zero] (by simp)⟩

end Frontend
